import Mathlib

/-!
Verification of the sotehus-power telemetry aggregation core.

Shallow embedding of the Python sources:
- src/application/data_manager.py   (DataManager: shared state store, write-through)
- src/backend/influxdb2_client.py   (InfluxDB2Client: sink construction, backoff)
- src/backend/mqtt_client.py        (MQTTPowerClient._on_message: push ingest)
- src/backend/solar_edge.py         (calculate_solar_update_interval)
- src/frontend/nicegui_app.py       (SpotPriceDashboard: fetches and tick loop)

Machine floats are modelled by exact rationals; wall-clock timestamps by
integer minutes (for the scheduler) or integer seconds (for the sink).
External collaborators (HTTP APIs, the MQTT broker, the astral library,
the InfluxDB driver) are modelled by explicit outcome parameters, so every
operation of the core is a pure, executable Lean function.
-/

namespace Sotehus

/-- Python round-half-even of a rational to the nearest integer,
as used by the builtin round. -/
def roundHalfEven (q : ℚ) : ℤ :=
  if q - ⌊q⌋ < 1/2 then ⌊q⌋
  else if q - ⌊q⌋ > 1/2 then ⌊q⌋ + 1
  else if ⌊q⌋ % 2 = 0 then ⌊q⌋ else ⌊q⌋ + 1

/-- Python round(x, 2): round to two decimal places, ties to even. -/
def round2 (q : ℚ) : ℚ := (roundHalfEven (q * 100) : ℚ) / 100

/-- One payload handed to InfluxDB2Client.write_power_data: up to three
optional numeric fields and an optional explicit timestamp
(data_manager.py lines 176-183, influxdb2_client.py lines 160-205). -/
structure InfluxWritePayload where
  grid_power : Option ℚ
  spot_price : Option ℚ
  solar_production : Option ℚ
  timestamp : Option ℤ
deriving DecidableEq

/-- The mutable fields of the DataManager singleton that the claims are
about (data_manager.py lines 44-62): the latest power Sample, the cached
spot price and solar production, and the connected-clients counter.
The counter is a Python int, modelled as an unbounded integer. -/
structure DataManagerState where
  latestPowerData : Option (ℚ × ℤ)
  latestSpotPrice : Option ℚ
  latestSolarProduction : Option ℚ
  connectedClients : ℤ
deriving DecidableEq

/-- DataManager state right after first initialization. -/
def dmInit : DataManagerState :=
  { latestPowerData := none
    latestSpotPrice := none
    latestSolarProduction := none
    connectedClients := 0 }

/-- DataManager._write_to_influxdb (data_manager.py lines 153-189): when a
connected sink client is available, emit one write combining the given
grid power with the cached spot price and solar production; otherwise
emit nothing. The sink presence check is the sinkAvailable flag. -/
def write_to_influxdb (sinkAvailable : Bool) (st : DataManagerState)
    (grid : Option ℚ) (ts : Option ℤ) : List InfluxWritePayload :=
  if sinkAvailable then
    [{ grid_power := grid
       spot_price := st.latestSpotPrice
       solar_production := st.latestSolarProduction
       timestamp := ts }]
  else []

/-- DataManager.update_power_data (data_manager.py lines 121-139): cache
the power rounded to 2 decimals with its timestamp, then write through to
InfluxDB passing the raw (unrounded) power together with the cached spot
price and solar production. -/
def update_power_data (sinkAvailable : Bool) (power : ℚ) (timestamp : ℤ)
    (st : DataManagerState) : DataManagerState × List InfluxWritePayload :=
  let st1 := { st with latestPowerData := some (round2 power, timestamp) }
  (st1, write_to_influxdb sinkAvailable st1 (some power) (some timestamp))

/-- DataManager.update_spot_price (data_manager.py lines 141-145): cache
the latest spot price. No InfluxDB write is issued. -/
def update_spot_price (price : ℚ) (st : DataManagerState) :
    DataManagerState × List InfluxWritePayload :=
  ({ st with latestSpotPrice := some price }, [])

/-- DataManager.update_solar_production (data_manager.py lines 147-151):
cache the latest solar production. No InfluxDB write is issued. -/
def update_solar_production (production : ℚ) (st : DataManagerState) :
    DataManagerState × List InfluxWritePayload :=
  ({ st with latestSolarProduction := some production }, [])

/-- DataManager.get_latest_power_data (data_manager.py lines 116-119):
return (a copy of) the latest power Sample. -/
def get_latest_power_data (st : DataManagerState) : Option (ℚ × ℤ) :=
  st.latestPowerData

/-- DataManager.increment_clients (data_manager.py lines 193-199). -/
def increment_clients (st : DataManagerState) : DataManagerState × ℤ :=
  let c := st.connectedClients + 1
  ({ st with connectedClients := c }, c)

/-- DataManager.decrement_clients (data_manager.py lines 201-207):
floor-clamped at zero. -/
def decrement_clients (st : DataManagerState) : DataManagerState × ℤ :=
  let c := max 0 (st.connectedClients - 1)
  ({ st with connectedClients := c }, c)

/-- DataManager.has_connected_clients (data_manager.py lines 214-217). -/
def has_connected_clients (st : DataManagerState) : Bool :=
  st.connectedClients > 0

/-- A session open or close event, driving the observer counter. -/
inductive ClientOp where
  | inc : ClientOp
  | dec : ClientOp
deriving DecidableEq

/-- Apply one observer-count event to the DataManager state. -/
def applyClientOp (st : DataManagerState) : ClientOp → DataManagerState
  | ClientOp.inc => (increment_clients st).1
  | ClientOp.dec => (decrement_clients st).1

/-- Run a sequence of observer-count events left to right. -/
def runClientOps (st : DataManagerState) : List ClientOp → DataManagerState
  | [] => st
  | op :: rest => runClientOps (applyClientOp st op) rest

/-- Number of increments in a sequence of observer-count events. -/
def incCount : List ClientOp → ℕ
  | [] => 0
  | ClientOp.inc :: t => incCount t + 1
  | ClientOp.dec :: t => incCount t

/-- Number of decrements in a sequence of observer-count events. -/
def decCount : List ClientOp → ℕ
  | [] => 0
  | ClientOp.inc :: t => decCount t
  | ClientOp.dec :: t => decCount t + 1

/-! InfluxDB2Client (influxdb2_client.py): connection state, construction,
reconnection with exponential backoff. Timestamps are integer seconds. -/

/-- The connection-related fields of InfluxDB2Client
(influxdb2_client.py lines 67-72). -/
structure SinkState where
  connected : Bool
  lastConnectionAttempt : ℤ
  reconnectDelay : ℤ
deriving DecidableEq

/-- Python truthiness of an optional string: None and the empty string
are falsy. -/
def truthy : Option String → Bool
  | none => false
  | some s => !s.isEmpty

/-- InfluxDB2Client._connect (influxdb2_client.py lines 77-131), with the
external driver and health check abstracted to the externalOk flag: if a
token is set, or a user and a password are both set, the attempt outcome
is the external outcome; with no authentication at all the method prints
and returns False without raising. -/
def influx_connect_auth (token user password : Option String)
    (externalOk : Bool) : Bool :=
  if truthy token then externalOk
  else if truthy user && truthy password then externalOk
  else false

/-- InfluxDB2Client.__init__ (influxdb2_client.py lines 30-75) on already
resolved parameters: raises ValueError exactly when the host is missing
or empty; otherwise initializes the state (delay 5 s, last attempt 0) and
makes one initial connection attempt whose failure is ignored. -/
def influx_init (host token user password : Option String)
    (externalOk : Bool) : Except String SinkState :=
  if !truthy host then
    Except.error "InfluxDB host is required"
  else
    Except.ok
      { connected := influx_connect_auth token user password externalOk
        lastConnectionAttempt := 0
        reconnectDelay := 5 }

/-- InfluxDB2Client._ensure_connection (influxdb2_client.py lines
133-158): no-op success when connected; throttled (no attempt, no state
change) when less than reconnectDelay seconds elapsed since the last
attempt; otherwise attempt reconnection, and on failure double the delay
capped at 60 s. The external connect outcome is the connectOk flag. -/
def ensure_connection (st : SinkState) (now : ℤ) (connectOk : Bool) :
    SinkState × Bool :=
  if st.connected then (st, true)
  else if now - st.lastConnectionAttempt < st.reconnectDelay then (st, false)
  else if connectOk then
    ({ st with connected := true, lastConnectionAttempt := now }, true)
  else
    ({ st with lastConnectionAttempt := now
               reconnectDelay := min (st.reconnectDelay * 2) 60 }, false)

/-- Run a sequence of ensure_connection calls, each given by its wall
time and the external connect outcome at that time. -/
def runSink (st : SinkState) : List (ℤ × Bool) → SinkState
  | [] => st
  | ev :: rest => runSink (ensure_connection st ev.1 ev.2).1 rest

/-- A sink state freshly constructed with valid host and credentials,
whose initial connection attempt had outcome ok0. -/
def sinkInit (ok0 : Bool) : SinkState :=
  { connected := ok0, lastConnectionAttempt := 0, reconnectDelay := 5 }

/-! MQTTPowerClient (mqtt_client.py): push-feed message handling. -/

/-- The message-handling fields of MQTTPowerClient
(mqtt_client.py lines 62-64). Timestamps are abstract integers. -/
structure MqttState where
  currentPower : Option ℚ
  lastUpdated : Option ℤ
deriving DecidableEq

/-- MQTTPowerClient._on_message (mqtt_client.py lines 118-139). The
payload is none when UTF-8 decoding raises (caught and dropped);
otherwise the decoded text. parseFloat models the Python float builtin
on strings, returning none when it raises ValueError (caught and
dropped). The handler trims the text, parses it, and on success updates
currentPower and lastUpdated before invoking the callback; the second
component records the callback invocation: the value passed and the
state visible when the callback fires (none when no callback fires). -/
def on_message (parseFloat : String → Option ℚ) (st : MqttState)
    (now : ℤ) (payload : Option String) :
    MqttState × Option (ℚ × MqttState) :=
  match payload with
  | none => (st, none)
  | some raw =>
    match parseFloat raw.trim with
    | none => (st, none)
    | some v =>
      let st1 : MqttState := { currentPower := some v, lastUpdated := some now }
      (st1, some (v, st1))

/-! calculate_solar_update_interval (solar_edge.py lines 36-78). -/

/-- Python int() truncation of a rational toward zero. -/
def pyTrunc (q : ℚ) : ℤ :=
  if 0 ≤ q then ⌊q⌋ else -⌊-q⌋

/-- calculate_solar_update_interval (solar_edge.py lines 36-78). The
astral sunrise/sunset computation is abstracted to sunTimes, giving
sunrise and sunset as seconds when it succeeds and none when it raises;
any raise inside the body (including the division by zero when the
allowed-calls count is zero) is caught and yields the fallback of 10
minutes. Otherwise: daylight minutes is the window length in seconds
over 60, allowed calls is int(maxDailyCalls * usagePercent), and the
result is int(max(5, daylightMinutes / allowedCalls)). -/
def calculate_solar_update_interval (maxDailyCalls : ℤ) (usagePercent : ℚ)
    (sunTimes : Option (ℚ × ℚ)) : ℤ :=
  match sunTimes with
  | none => 10
  | some times =>
    let daylightMinutes : ℚ := (times.2 - times.1) / 60
    let allowedCalls : ℤ := pyTrunc (maxDailyCalls * usagePercent)
    if allowedCalls = 0 then 10
    else
      let intervalMinutes : ℚ := daylightMinutes / allowedCalls
      pyTrunc (max 5 intervalMinutes)

/-! SpotPriceDashboard (nicegui_app.py): poll fetches and the background
tick loop. Wall-clock times are integer minutes since an epoch, from
which the calendar fields used by the code are derived. -/

/-- A wall-clock instant at one-minute granularity. -/
structure Time where
  epochMinutes : ℤ
deriving DecidableEq

/-- The minute-of-hour field of a datetime. -/
def Time.minute (t : Time) : ℤ := t.epochMinutes % 60

/-- The hour-of-day field of a datetime. -/
def Time.hour (t : Time) : ℤ := t.epochMinutes / 60 % 24

/-- The calendar-date field of a datetime, as a day index. -/
def Time.date (t : Time) : ℤ := t.epochMinutes / 1440

/-- Outcome of one call to a poll collaborator (the spot-price HTTP
client or the SolarEdge client): exc when the call raises, ok v when it
returns the optional value v (none models the absent result). -/
inductive FetchOutcome where
  | exc : FetchOutcome
  | ok : Option ℚ → FetchOutcome
deriving DecidableEq

/-- The dashboard fields involved in the poll scheduling claims
(nicegui_app.py lines 50-102). -/
structure DashboardState where
  currentPrice : Option ℚ
  lastPriceUpdate : Option Time
  currentSolarPower : Option ℚ
  lastSolarUpdate : Option Time
  solarAvailable : Bool
  solarUpdateInterval : ℤ
  solarError : String
deriving DecidableEq

/-- SpotPriceDashboard.fetch_spot_price (nicegui_app.py lines 188-202)
together with the DataManager call it makes. On a raise from the
collaborator the exception is caught and nothing changes. On a normal
return the price (possibly None) is stored and lastPriceUpdate is set to
now unconditionally; only a non-None price is forwarded to
DataManager.update_spot_price. The third component lists the InfluxDB
writes issued by the whole operation. -/
def fetch_spot_price (s : DashboardState) (dm : DataManagerState)
    (now : Time) (res : FetchOutcome) :
    DashboardState × DataManagerState × List InfluxWritePayload :=
  match res with
  | FetchOutcome.exc => (s, dm, [])
  | FetchOutcome.ok v =>
    let s1 := { s with currentPrice := v, lastPriceUpdate := some now }
    match v with
    | none => (s1, dm, [])
    | some p =>
      let r := update_spot_price p dm
      (s1, r.1, r.2)

/-- SpotPriceDashboard.fetch_solar_power (nicegui_app.py lines 164-186)
together with the DataManager call it makes. Returns immediately when
solar is unavailable; on a raise the exception is caught, only the error
text changes; on an absent value only the error text changes; on a value
p the dashboard stores round(p, 2), sets lastSolarUpdate to now, and
forwards the rounded value to DataManager.update_solar_production. -/
def fetch_solar_power (s : DashboardState) (dm : DataManagerState)
    (now : Time) (res : FetchOutcome) :
    DashboardState × DataManagerState × List InfluxWritePayload :=
  if !s.solarAvailable then (s, dm, [])
  else
    match res with
    | FetchOutcome.exc => ({ s with solarError := "Solar error" }, dm, [])
    | FetchOutcome.ok none =>
      ({ s with solarError := "No solar data available" }, dm, [])
    | FetchOutcome.ok (some p) =>
      let s1 := { s with currentSolarPower := some (round2 p)
                         lastSolarUpdate := some now
                         solarError := "" }
      let r := update_solar_production (round2 p) dm
      (s1, r.1, r.2)

/-- The spot-price due check of the background loop (nicegui_app.py
lines 365-375): fetch when there was no previous fetch, or the
quarter-hour index of the current minute differs from that of the last
fetch, or the hour differs. -/
def should_fetch_spot (s : DashboardState) (now : Time) : Bool :=
  match s.lastPriceUpdate with
  | none => true
  | some last =>
    (now.minute / 15 != last.minute / 15) || (now.hour != last.hour)

/-- The solar due check of the background loop (nicegui_app.py lines
356-363): due when there was no previous solar fetch or at least
solarUpdateInterval minutes elapsed since it. -/
def solar_due (s : DashboardState) (now : Time) : Bool :=
  match s.lastSolarUpdate with
  | none => true
  | some last => now.epochMinutes - last.epochMinutes ≥ s.solarUpdateInterval

/-- State of one run of background_update_loop: the dashboard, the data
manager, and the loop-local last_interval_update variable. -/
structure LoopState where
  dash : DashboardState
  dm : DataManagerState
  lastIntervalUpdate : Option Time
deriving DecidableEq

/-- External inputs consumed by one tick of the loop: the current time,
the is_sun_up() result, the freshly computed solar interval, and the two
collaborator outcomes (used only if the corresponding fetch runs). -/
structure TickInput where
  now : Time
  sunUp : Bool
  newInterval : ℤ
  solarRes : FetchOutcome
  priceRes : FetchOutcome
deriving DecidableEq

/-- What one tick did: the new loop state, the InfluxDB writes issued,
and whether the solar and the spot-price fetches were performed. -/
structure TickResult where
  state : LoopState
  writes : List InfluxWritePayload
  solarFetched : Bool
  priceFetched : Bool
deriving DecidableEq

/-- One iteration of SpotPriceDashboard.background_update_loop
(nicegui_app.py lines 334-375): read has_connected_clients; once per
calendar day recompute the solar interval (only when solar is
available); fetch solar only when solar is available, clients are
connected, the sun is up, and the interval elapsed; fetch the spot price
according to the quarter-hour boundary rule, with no client gating. -/
def background_tick (ls : LoopState) (inp : TickInput) : TickResult :=
  let hasClients := has_connected_clients ls.dm
  let recompute :=
    match ls.lastIntervalUpdate with
    | none => true
    | some t => inp.now.date != t.date
  let dash0 :=
    if recompute && ls.dash.solarAvailable then
      { ls.dash with solarUpdateInterval := inp.newInterval }
    else ls.dash
  let liu :=
    if recompute && ls.dash.solarAvailable then some inp.now
    else ls.lastIntervalUpdate
  let doSolar := dash0.solarAvailable && hasClients && inp.sunUp
      && solar_due dash0 inp.now
  let step1 :=
    if doSolar then fetch_solar_power dash0 ls.dm inp.now inp.solarRes
    else (dash0, ls.dm, [])
  let doPrice := should_fetch_spot step1.1 inp.now
  let step2 :=
    if doPrice then fetch_spot_price step1.1 step1.2.1 inp.now inp.priceRes
    else (step1.1, step1.2.1, [])
  { state := { dash := step2.1, dm := step2.2.1, lastIntervalUpdate := liu }
    writes := step1.2.2 ++ step2.2.2
    solarFetched := doSolar
    priceFetched := doPrice }

/-- Run successive ticks of the background loop, counting how many of
them performed a spot-price fetch. -/
def run_ticks (ls : LoopState) : List TickInput → LoopState × ℕ
  | [] => (ls, 0)
  | inp :: rest =>
    let r := background_tick ls inp
    let rec1 := run_ticks r.state rest
    (rec1.1, (if r.priceFetched then 1 else 0) + rec1.2)

/-! Concrete states and inputs used to evaluate the model. -/

/-- A dashboard state with no previous price fetch and solar unavailable. -/
def dashFresh : DashboardState :=
  { currentPrice := none
    lastPriceUpdate := none
    currentSolarPower := none
    lastSolarUpdate := none
    solarAvailable := false
    solarUpdateInterval := 10
    solarError := "" }

/-- A dashboard state whose last price fetch happened at epoch minute 0. -/
def dashPrev : DashboardState := { dashFresh with lastPriceUpdate := some ⟨0⟩ }

/-- A dashboard state with solar configured and available. -/
def dashSolar : DashboardState := { dashFresh with solarAvailable := true }

/-- A loop state with zero connected clients and no previous price fetch. -/
def lsNoClients : LoopState :=
  { dash := dashFresh, dm := dmInit, lastIntervalUpdate := none }

/-- A tick input at epoch minute 0 with both collaborators succeeding. -/
def tickInp0 : TickInput :=
  { now := ⟨0⟩
    sunUp := true
    newInterval := 10
    solarRes := FetchOutcome.ok (some 1)
    priceRes := FetchOutcome.ok (some 1) }

/-- A dashboard whose last price fetch happened at minute 14 of hour 10
(epoch minute 614), with one connected client. -/
def lsQuarter : LoopState :=
  { dash := { dashFresh with currentPrice := some 1, lastPriceUpdate := some ⟨614⟩ }
    dm := { dmInit with connectedClients := 1 }
    lastIntervalUpdate := none }

/-- The 60-second ticks at minutes 15 through 29 of hour 10 (epoch
minutes 615 to 629), each with a successful price collaborator. -/
def ticksQuarter : List TickInput :=
  (List.range 15).map (fun k =>
    { now := ⟨615 + (k : ℤ)⟩
      sunUp := false
      newInterval := 10
      solarRes := FetchOutcome.ok none
      priceRes := FetchOutcome.ok (some 2) })

/-- The tick at minute 15 of hour 10 (the quarter-boundary crossing). -/
def tickQuarter15 : TickInput :=
  { now := ⟨615⟩
    sunUp := false
    newInterval := 10
    solarRes := FetchOutcome.ok none
    priceRes := FetchOutcome.ok (some 2) }

/-- A push-feed parse function used to evaluate on_message concretely:
rejects every payload. -/
def parseNoneFn : String → Option ℚ := fun _ => none

/-- A push-feed parse function used to evaluate on_message concretely:
parses every payload as 42. -/
def parseConst42 : String → Option ℚ := fun _ => some 42

/-! Helper lemmas shared by the claim theorems. -/

/-- One observer-count event keeps the counter non-negative. -/
lemma applyClientOp_nonneg (st : DataManagerState) (op : ClientOp)
    (h : 0 ≤ st.connectedClients) : 0 ≤ (applyClientOp st op).connectedClients := by
  cases op
  · simp [applyClientOp, increment_clients]
    omega
  · simp [applyClientOp, decrement_clients]

/-- Any sequence of observer-count events keeps the counter
non-negative. -/
lemma runClientOps_clients_nonneg (ops : List ClientOp) (st : DataManagerState)
    (h : 0 ≤ st.connectedClients) : 0 ≤ (runClientOps st ops).connectedClients := by
  induction ops generalizing st with
  | nil => simpa [runClientOps] using h
  | cons op t ih => exact ih _ (applyClientOp_nonneg st op h)

/-- The counter after a sequence of events is at least the clamp-free
balance. -/
lemma runClientOps_clients_lower (ops : List ClientOp) (st : DataManagerState) :
    st.connectedClients + (incCount ops : ℤ) - (decCount ops : ℤ) ≤
      (runClientOps st ops).connectedClients := by
  induction ops generalizing st with
  | nil => simp [runClientOps, incCount, decCount]
  | cons op t ih =>
    cases op with
    | inc =>
      have := ih ((increment_clients st).1)
      simp [runClientOps, applyClientOp, increment_clients, incCount, decCount] at this ⊢
      omega
    | dec =>
      have := ih ((decrement_clients st).1)
      simp [runClientOps, applyClientOp, decrement_clients, incCount, decCount] at this ⊢
      omega

/-- When no event ever decrements past zero, the counter equals the
clamp-free balance. -/
lemma runClientOps_clients_exact (ops : List ClientOp) (st : DataManagerState)
    (h : ∀ k : ℕ, (decCount (ops.take k) : ℤ) ≤
      st.connectedClients + (incCount (ops.take k) : ℤ)) :
    (runClientOps st ops).connectedClients =
      st.connectedClients + (incCount ops : ℤ) - (decCount ops : ℤ) := by
  induction ops generalizing st with
  | nil => simp [runClientOps, incCount, decCount]
  | cons op t ih =>
    cases op with
    | inc =>
      have ht := ih ((increment_clients st).1) (fun k => by
        have := h (k + 1)
        simp [incCount, decCount, increment_clients] at this ⊢
        omega)
      simp [runClientOps, applyClientOp, increment_clients, incCount, decCount] at ht ⊢
      omega
    | dec =>
      have h1 := h 1
      simp [incCount, decCount] at h1
      have ht := ih ((decrement_clients st).1) (fun k => by
        have := h (k + 1)
        simp [incCount, decCount, decrement_clients] at this ⊢
        omega)
      simp [runClientOps, applyClientOp, decrement_clients, incCount, decCount] at ht ⊢
      omega

/-- One ensure_connection call keeps the backoff delay between 5 and
60 seconds. -/
lemma ensure_connection_delay_bounds (st : SinkState) (now : ℤ) (ok : Bool)
    (h5 : 5 ≤ st.reconnectDelay) (h60 : st.reconnectDelay ≤ 60) :
    5 ≤ (ensure_connection st now ok).1.reconnectDelay ∧
      (ensure_connection st now ok).1.reconnectDelay ≤ 60 := by
  unfold ensure_connection
  split
  · exact ⟨h5, h60⟩
  · split
    · exact ⟨h5, h60⟩
    · split
      · exact ⟨h5, h60⟩
      · refine ⟨?_, ?_⟩
        · simp
          omega
        · simp

/-- Any run of ensure_connection calls keeps the backoff delay between
5 and 60 seconds. -/
lemma runSink_delay_bounds (evs : List (ℤ × Bool)) (st : SinkState)
    (h5 : 5 ≤ st.reconnectDelay) (h60 : st.reconnectDelay ≤ 60) :
    5 ≤ (runSink st evs).reconnectDelay ∧ (runSink st evs).reconnectDelay ≤ 60 := by
  induction evs generalizing st with
  | nil => exact ⟨h5, h60⟩
  | cons ev t ih =>
    have hb := ensure_connection_delay_bounds st ev.1 ev.2 h5 h60
    exact ih _ hb.1 hb.2

/-- A solar fetch never changes the last price-fetch timestamp. -/
lemma fetch_solar_power_lastPriceUpdate (s : DashboardState) (dm : DataManagerState)
    (now : Time) (res : FetchOutcome) :
    (fetch_solar_power s dm now res).1.lastPriceUpdate = s.lastPriceUpdate := by
  cases hA : s.solarAvailable <;> rcases res with _ | v <;>
    [skip; skip; skip; rcases v with _ | p] <;>
    simp [fetch_solar_power, update_solar_production, hA]

/-- The spot-price due check depends only on the last price-fetch
timestamp. -/
lemma should_fetch_spot_eq_of (s1 s2 : DashboardState) (n : Time)
    (h : s1.lastPriceUpdate = s2.lastPriceUpdate) :
    should_fetch_spot s1 n = should_fetch_spot s2 n := by
  unfold should_fetch_spot
  rw [h]

/-- On every tick the spot-price fetch decision is exactly the boundary
rule evaluated on the pre-tick dashboard state, whatever the observer
count, the sun, or the solar fetch did. -/
lemma background_tick_priceFetched (ls : LoopState) (inp : TickInput) :
    (background_tick ls inp).priceFetched = should_fetch_spot ls.dash inp.now := by
  unfold background_tick
  dsimp only
  apply should_fetch_spot_eq_of
  split <;> split <;> first
    | rfl
    | rw [fetch_solar_power_lastPriceUpdate]

/-- Python int() truncation agrees with the floor on non-negative
rationals. -/
lemma pyTrunc_of_nonneg (q : ℚ) (h : 0 ≤ q) : pyTrunc q = ⌊q⌋ := by
  simp [pyTrunc, h]

/-- With no connected clients the tick never performs a solar fetch. -/
lemma background_tick_solarFetched_no_clients (ls : LoopState) (inp : TickInput)
    (h : has_connected_clients ls.dm = false) :
    (background_tick ls inp).solarFetched = false := by
  unfold background_tick
  dsimp only
  simp [h]

/-! Claim theorems. -/

/-- Claim C1, counterexample: a successful spot-price poll fetch and a
successful solar poll fetch both update the DataManager cache but issue
no TelemetrySink write in the same operation, contradicting the claim
that every successful poll fetch performs a write-through persist. -/
theorem C1_counterexample :
    (fetch_spot_price dashPrev dmInit ⟨1⟩ (FetchOutcome.ok (some 1))).2.1.latestSpotPrice
        = some 1 ∧
    (fetch_spot_price dashPrev dmInit ⟨1⟩ (FetchOutcome.ok (some 1))).2.2 = [] ∧
    (fetch_solar_power dashSolar dmInit ⟨1⟩ (FetchOutcome.ok (some 2))).2.1.latestSolarProduction
        = some (round2 2) ∧
    (fetch_solar_power dashSolar dmInit ⟨1⟩ (FetchOutcome.ok (some 2))).2.2 = [] :=
  ⟨rfl, rfl, rfl, rfl⟩

/-- Claim C1, amended: every successful poll fetch updates the source's
lastFetch and writes the new value into the shared store, but performs
no write-through persist to the TelemetrySink; only a grid-power push
update writes to the sink, and that write combines the freshest cached
value of every telemetry kind. -/
theorem C1_amended (s : DashboardState) (dm : DataManagerState) (now : Time)
    (p : ℚ) (ts : ℤ) (hs : s.solarAvailable = true) :
    (fetch_spot_price s dm now (FetchOutcome.ok (some p))).1.lastPriceUpdate = some now ∧
    (fetch_spot_price s dm now (FetchOutcome.ok (some p))).2.1.latestSpotPrice = some p ∧
    (fetch_spot_price s dm now (FetchOutcome.ok (some p))).2.2 = [] ∧
    (fetch_solar_power s dm now (FetchOutcome.ok (some p))).1.lastSolarUpdate = some now ∧
    (fetch_solar_power s dm now (FetchOutcome.ok (some p))).2.1.latestSolarProduction
        = some (round2 p) ∧
    (fetch_solar_power s dm now (FetchOutcome.ok (some p))).2.2 = [] ∧
    (update_power_data true p ts dm).2 =
      [{ grid_power := some p
         spot_price := dm.latestSpotPrice
         solar_production := dm.latestSolarProduction
         timestamp := some ts }] := by
  refine ⟨rfl, rfl, rfl, ?_, ?_, ?_, rfl⟩ <;>
    simp [fetch_solar_power, update_solar_production, hs]

/-- Witness for C1_amended at a solar-available dashboard. -/
theorem C1_amended_witness :
    (fetch_solar_power dashSolar dmInit ⟨3⟩ (FetchOutcome.ok (some 7))).1.lastSolarUpdate
      = some ⟨3⟩ :=
  (C1_amended dashSolar dmInit ⟨3⟩ 7 0 (by decide)).2.2.2.1

/-- Claim C2, counterexample: on a tick with zero connected clients the
loop still performs a spot-price fetch (here because no previous fetch
exists), contradicting the claim that no poll-based fetch of any source
happens while nobody observes. -/
theorem C2_counterexample :
    has_connected_clients lsNoClients.dm = false ∧
    (background_tick lsNoClients tickInp0).priceFetched = true := by
  decide

/-- Claim C2, amended: on a tick with no observers the solar fetch is
always skipped, but the spot-price fetch proceeds according to its
quarter-hour boundary rule regardless of the observer count. -/
theorem C2_amended (ls : LoopState) (inp : TickInput)
    (h : has_connected_clients ls.dm = false) :
    (background_tick ls inp).solarFetched = false ∧
    (background_tick ls inp).priceFetched = should_fetch_spot ls.dash inp.now :=
  ⟨background_tick_solarFetched_no_clients ls inp h,
   background_tick_priceFetched ls inp⟩

/-- Witness for C2_amended at a concrete observer-free tick. -/
theorem C2_amended_witness :
    has_connected_clients lsNoClients.dm = false ∧
    (background_tick lsNoClients tickInp0).solarFetched = false ∧
    (background_tick lsNoClients tickInp0).priceFetched
      = should_fetch_spot lsNoClients.dash tickInp0.now :=
  ⟨by decide, C2_amended lsNoClients tickInp0 (by decide)⟩

/-- Claim C3, counterexample: when the spot-price collaborator returns
absent (None), fetch_spot_price still advances the last-fetch timestamp
from epoch minute 0 to epoch minute 1, contradicting the claim that an
absent result never advances lastFetch. -/
theorem C3_counterexample :
    dashPrev.lastPriceUpdate = some ⟨0⟩ ∧
    (fetch_spot_price dashPrev dmInit ⟨1⟩ (FetchOutcome.ok none)).1.lastPriceUpdate
      = some ⟨1⟩ := by
  decide

/-- Claim C3, amended: a raising collaborator never advances either
source's lastFetch and the exception is swallowed; an absent result
leaves the solar lastFetch unchanged, but an absent spot-price result
does advance lastPriceUpdate to the current time (only the DataManager
forwarding is skipped). -/
theorem C3_amended (s : DashboardState) (dm : DataManagerState) (now : Time) :
    fetch_spot_price s dm now FetchOutcome.exc = (s, dm, []) ∧
    (fetch_solar_power s dm now FetchOutcome.exc).1.lastSolarUpdate = s.lastSolarUpdate ∧
    (fetch_solar_power s dm now FetchOutcome.exc).2 = (dm, []) ∧
    (fetch_solar_power s dm now (FetchOutcome.ok none)).1.lastSolarUpdate = s.lastSolarUpdate ∧
    (fetch_solar_power s dm now (FetchOutcome.ok none)).2 = (dm, []) ∧
    (fetch_spot_price s dm now (FetchOutcome.ok none)).1.lastPriceUpdate = some now ∧
    (fetch_spot_price s dm now (FetchOutcome.ok none)).2 = (dm, []) := by
  refine ⟨rfl, ?_, ?_, ?_, ?_, rfl, rfl⟩ <;>
    cases hA : s.solarAvailable <;> simp [fetch_solar_power, hA]

/-- Claim C4, counterexample: constructing the sink with a host but
neither token nor user+password succeeds (no configuration error is
raised); the client simply starts disconnected. -/
theorem C4_counterexample :
    influx_init (some "localhost") none none none false =
      Except.ok { connected := false, lastConnectionAttempt := 0, reconnectDelay := 5 } := by
  rfl

/-- Claim C4, amended: with a host present, construction without any
authentication does not raise; the no-auth connect attempt fails and the
client is left disconnected with the initial backoff state. Only a
missing host raises a configuration error at construction. -/
theorem C4_amended (host token user password : Option String) (externalOk : Bool)
    (hh : truthy host = true)
    (hauth : truthy token = false ∧ (truthy user && truthy password) = false) :
    influx_init host token user password externalOk =
      Except.ok { connected := false, lastConnectionAttempt := 0, reconnectDelay := 5 } ∧
    (∀ t u p o, influx_init none t u p o = Except.error "InfluxDB host is required") := by
  constructor
  · simp [influx_init, influx_connect_auth, hh, hauth.1, hauth.2]
  · intro t u p o
    rfl

/-- Witness for C4_amended at a host with a user but no password. -/
theorem C4_amended_witness :
    influx_init (some "myhost") none (some "user") none true =
      Except.ok { connected := false, lastConnectionAttempt := 0, reconnectDelay := 5 } :=
  (C4_amended (some "myhost") none (some "user") none true (by decide)
    ⟨by decide, by decide⟩).1

/-- Claim C5, counterexample: after three consecutive non-throttled
failed reconnection attempts the delay is 40 s, and the fourth failed
attempt sets it to 60 s, not the strict double 80 s; so failed attempts
do not always strictly double the delay. -/
theorem C5_counterexample :
    (runSink (sinkInit false) [(5, false), (15, false), (35, false)]).reconnectDelay = 40 ∧
    (runSink (sinkInit false)
        [(5, false), (15, false), (35, false), (75, false)]).reconnectDelay = 60 ∧
    ¬ (runSink (sinkInit false)
        [(5, false), (15, false), (35, false), (75, false)]).reconnectDelay =
      2 * (runSink (sinkInit false) [(5, false), (15, false), (35, false)]).reconnectDelay := by
  decide

/-- Claim C5, amended: in every state reachable from construction the
backoff delay lies between 5 and 60 seconds, and a non-throttled failed
reconnection attempt sets it to min(delay*2, 60) — a strict doubling
exactly while the doubled value stays within the 60-second cap. -/
theorem C5_amended (ok0 : Bool) (evs : List (ℤ × Bool)) (now : ℤ)
    (hconn : (runSink (sinkInit ok0) evs).connected = false)
    (helapsed : (runSink (sinkInit ok0) evs).reconnectDelay ≤
      now - (runSink (sinkInit ok0) evs).lastConnectionAttempt) :
    5 ≤ (runSink (sinkInit ok0) evs).reconnectDelay ∧
    (runSink (sinkInit ok0) evs).reconnectDelay ≤ 60 ∧
    (ensure_connection (runSink (sinkInit ok0) evs) now false).1.reconnectDelay =
      min ((runSink (sinkInit ok0) evs).reconnectDelay * 2) 60 ∧
    ((runSink (sinkInit ok0) evs).reconnectDelay * 2 ≤ 60 →
      (ensure_connection (runSink (sinkInit ok0) evs) now false).1.reconnectDelay =
        (runSink (sinkInit ok0) evs).reconnectDelay * 2) := by
  have hb := runSink_delay_bounds evs (sinkInit ok0) (by simp [sinkInit]) (by simp [sinkInit])
  refine ⟨hb.1, hb.2, ?_, ?_⟩
  · unfold ensure_connection
    rw [if_neg (by simp [hconn]), if_neg (by omega), if_neg (by simp)]
  · intro hd
    unfold ensure_connection
    rw [if_neg (by simp [hconn]), if_neg (by omega), if_neg (by simp)]
    simp
    omega

/-- Witness for C5_amended right after a failed construction. -/
theorem C5_amended_witness :
    5 ≤ (runSink (sinkInit false) []).reconnectDelay ∧
    (runSink (sinkInit false) []).reconnectDelay ≤ 60 ∧
    (ensure_connection (runSink (sinkInit false) []) 5 false).1.reconnectDelay =
      min ((runSink (sinkInit false) []).reconnectDelay * 2) 60 ∧
    ((runSink (sinkInit false) []).reconnectDelay * 2 ≤ 60 →
      (ensure_connection (runSink (sinkInit false) []) 5 false).1.reconnectDelay =
        (runSink (sinkInit false) []).reconnectDelay * 2) :=
  C5_amended false [] 5 (by decide) (by decide)

/-- Claim C6, counterexample: for the sequence [decrement, increment]
starting from zero the final count is 1, not
max(0, increments − decrements) = 0; the zero-clamped decrement makes
the claimed formula fail. -/
theorem C6_counterexample :
    (runClientOps dmInit [ClientOp.dec, ClientOp.inc]).connectedClients ≠
      max 0 ((incCount [ClientOp.dec, ClientOp.inc] : ℤ) -
        (decCount [ClientOp.dec, ClientOp.inc] : ℤ)) := by
  decide

/-- Claim C6, amended: for every sequence of increment and decrement
calls starting from zero the count is never negative at any
intermediate point, the final count is at least max(0, increments −
decrements), and it equals the exact balance whenever no prefix has
more decrements than increments. -/
theorem C6_amended (ops : List ClientOp) :
    (∀ k : ℕ, 0 ≤ (runClientOps dmInit (ops.take k)).connectedClients) ∧
    max 0 ((incCount ops : ℤ) - (decCount ops : ℤ)) ≤
      (runClientOps dmInit ops).connectedClients ∧
    ((∀ k : ℕ, (decCount (ops.take k) : ℤ) ≤ (incCount (ops.take k) : ℤ)) →
      (runClientOps dmInit ops).connectedClients =
        (incCount ops : ℤ) - (decCount ops : ℤ)) := by
  have h0 : dmInit.connectedClients = 0 := rfl
  refine ⟨fun k => runClientOps_clients_nonneg _ _ (by rw [h0]), ?_, fun h => ?_⟩
  · have h1 := runClientOps_clients_lower ops dmInit
    have h2 := runClientOps_clients_nonneg ops dmInit (by rw [h0])
    rw [h0] at h1
    omega
  · have he := runClientOps_clients_exact ops dmInit (fun k => by
      have := h k
      rw [h0]
      omega)
    rw [h0] at he
    omega

/-- Witness for C6_amended on the balanced sequence [inc, dec]. -/
theorem C6_amended_witness :
    0 ≤ (runClientOps dmInit ([ClientOp.inc, ClientOp.dec].take 1)).connectedClients ∧
    max 0 ((incCount [ClientOp.inc, ClientOp.dec] : ℤ) -
        (decCount [ClientOp.inc, ClientOp.dec] : ℤ)) ≤
      (runClientOps dmInit [ClientOp.inc, ClientOp.dec]).connectedClients ∧
    (runClientOps dmInit [ClientOp.inc, ClientOp.dec]).connectedClients =
      (incCount [ClientOp.inc, ClientOp.dec] : ℤ) -
        (decCount [ClientOp.inc, ClientOp.dec] : ℤ) :=
  ⟨(C6_amended [ClientOp.inc, ClientOp.dec]).1 1,
   (C6_amended [ClientOp.inc, ClientOp.dec]).2.1,
   (C6_amended [ClientOp.inc, ClientOp.dec]).2.2 (fun k => by
     rcases k with _ | _ | n
     · decide
     · decide
     · simp [List.take_succ_cons, incCount, decCount])⟩

/-- Claim C7, confirmed: a tick performs a spot-price fetch exactly when
lastFetch is absent, or the quarter-hour index of the current minute
differs from the last fetch's, or the hour differs; consequently with
60-second ticks a price fetch fires exactly once as the clock crosses
from minute 14 into minute 15 and not again before minute 30. -/
theorem C7_boundary_rule :
    (∀ (ls : LoopState) (inp : TickInput),
      (background_tick ls inp).priceFetched = true ↔
        (ls.dash.lastPriceUpdate = none ∨
          ∃ last : Time, ls.dash.lastPriceUpdate = some last ∧
            (inp.now.minute / 15 ≠ last.minute / 15 ∨ inp.now.hour ≠ last.hour))) ∧
    (background_tick lsQuarter tickQuarter15).priceFetched = true ∧
    (run_ticks lsQuarter ticksQuarter).2 = 1 := by
  refine ⟨?_, by decide, by decide⟩
  intro ls inp
  rw [background_tick_priceFetched]
  unfold should_fetch_spot
  rcases hL : ls.dash.lastPriceUpdate with _ | last
  · simp
  · simp [bne_iff_ne]

/-- Claim C8, confirmed: with a positive allowed-calls count and a
computed daylight window, the planned interval is the floor of
max(5, daylightMinutes / allowedCalls), hence never below 5; with
budget 300, fraction 0.9 and a 360-minute window it is exactly 5, and
on computation failure it is the fixed fallback 10. -/
theorem C8_planned_interval (maxDailyCalls : ℤ) (usagePercent : ℚ) (sunrise sunset : ℚ)
    (h : 0 < pyTrunc (maxDailyCalls * usagePercent)) :
    calculate_solar_update_interval maxDailyCalls usagePercent (some (sunrise, sunset)) =
      ⌊max 5 ((sunset - sunrise) / 60 / (pyTrunc (maxDailyCalls * usagePercent) : ℚ))⌋ ∧
    5 ≤ calculate_solar_update_interval maxDailyCalls usagePercent (some (sunrise, sunset)) ∧
    calculate_solar_update_interval 300 (9/10) (some (0, 21600)) = 5 ∧
    calculate_solar_update_interval maxDailyCalls usagePercent none = 10 := by
  have hne : pyTrunc (maxDailyCalls * usagePercent) ≠ 0 := ne_of_gt h
  have hmax : (0:ℚ) ≤ max 5 ((sunset - sunrise) / 60 /
      (pyTrunc (maxDailyCalls * usagePercent) : ℚ)) :=
    le_trans (by norm_num) (le_max_left _ _)
  have hEq : calculate_solar_update_interval maxDailyCalls usagePercent
      (some (sunrise, sunset)) =
      ⌊max 5 ((sunset - sunrise) / 60 / (pyTrunc (maxDailyCalls * usagePercent) : ℚ))⌋ := by
    simp only [calculate_solar_update_interval]
    rw [if_neg hne, pyTrunc_of_nonneg _ hmax]
  have hfive : (5:ℤ) ≤ ⌊max 5 ((sunset - sunrise) / 60 /
      (pyTrunc (maxDailyCalls * usagePercent) : ℚ))⌋ :=
    Int.le_floor.mpr (by exact_mod_cast le_max_left (5:ℚ) _)
  have hPT : pyTrunc (((300:ℤ) : ℚ) * (9/10)) = 270 := by
    have h1 : ((300:ℤ) : ℚ) * (9/10) = 270 := by norm_num
    rw [pyTrunc_of_nonneg _ (by rw [h1]; norm_num), h1]
    rw [show (270:ℚ) = ((270:ℤ) : ℚ) by norm_num, Int.floor_intCast]
  have hconc : calculate_solar_update_interval 300 (9/10) (some (0, 21600)) = 5 := by
    simp only [calculate_solar_update_interval]
    rw [hPT]
    rw [if_neg (by norm_num)]
    have h2 : ((21600:ℚ) - 0) / 60 / ((270:ℤ) : ℚ) = 4/3 := by norm_num
    rw [h2]
    have h3 : max (5:ℚ) (4/3) = 5 := max_eq_left (by norm_num)
    rw [h3, pyTrunc_of_nonneg _ (by norm_num)]
    rw [show (5:ℚ) = ((5:ℤ) : ℚ) by norm_num, Int.floor_intCast]
  exact ⟨hEq, hEq ▸ hfive, hconc, rfl⟩

/-- Witness for C8_planned_interval at the documented budget of 300
calls and 90 percent usage. -/
theorem C8_planned_interval_witness :
    (0:ℤ) < pyTrunc (((300:ℤ) : ℚ) * (9/10)) ∧
    calculate_solar_update_interval 300 (9/10) (some (0, 21600)) = 5 :=
  ⟨by
    have h1 : ((300:ℤ) : ℚ) * (9/10) = 270 := by norm_num
    rw [pyTrunc_of_nonneg _ (by rw [h1]; norm_num), h1]
    rw [show (270:ℚ) = ((270:ℤ) : ℚ) by norm_num, Int.floor_intCast]
    norm_num,
   (C8_planned_interval 300 (9/10) 0 21600 (by
    have h1 : ((300:ℤ) : ℚ) * (9/10) = 270 := by norm_num
    rw [pyTrunc_of_nonneg _ (by rw [h1]; norm_num), h1]
    rw [show (270:ℚ) = ((270:ℤ) : ℚ) by norm_num, Int.floor_intCast]
    norm_num)).2.2.1⟩

/-- Claim C9, confirmed: a push message whose decode or parse fails
leaves the last value and timestamp unchanged and fires no callback; a
successfully parsed message updates both before the callback fires, and
the callback observes the updated state. -/
theorem C9_on_message (parseFloat : String → Option ℚ) (st : MqttState)
    (now : ℤ) (raw : String) :
    on_message parseFloat st now none = (st, none) ∧
    (parseFloat raw.trim = none → on_message parseFloat st now (some raw) = (st, none)) ∧
    (∀ v : ℚ, parseFloat raw.trim = some v →
      on_message parseFloat st now (some raw) =
        ({ currentPower := some v, lastUpdated := some now },
         some (v, { currentPower := some v, lastUpdated := some now }))) := by
  refine ⟨rfl, fun h => ?_, fun v h => ?_⟩ <;> simp [on_message, h]

/-- Witness for C9_on_message with a rejecting and an accepting parse
function. -/
theorem C9_on_message_witness :
    on_message parseConst42 ⟨some 1, some 0⟩ 7 none = (⟨some 1, some 0⟩, none) ∧
    on_message parseNoneFn ⟨some 1, some 0⟩ 7 (some "abc") = (⟨some 1, some 0⟩, none) ∧
    on_message parseConst42 ⟨some 1, some 0⟩ 7 (some " 42 ") =
      (⟨some 42, some 7⟩, some (42, ⟨some 42, some 7⟩)) :=
  ⟨(C9_on_message parseConst42 ⟨some 1, some 0⟩ 7 "abc").1,
   (C9_on_message parseNoneFn ⟨some 1, some 0⟩ 7 "abc").2.1 rfl,
   (C9_on_message parseConst42 ⟨some 1, some 0⟩ 7 " 42 ").2.2 42 rfl⟩

/-- Claim C10, confirmed: a grid-power update caches the value rounded
to two decimals while the sink write issued by the same call carries the
raw value; when rounding changes the value, the persisted payload
differs from one carrying the cached value. -/
theorem C10_rounding_divergence (power : ℚ) (ts : ℤ) (st : DataManagerState) :
    get_latest_power_data (update_power_data true power ts st).1 = some (round2 power, ts) ∧
    (update_power_data true power ts st).2 =
      [{ grid_power := some power
         spot_price := st.latestSpotPrice
         solar_production := st.latestSolarProduction
         timestamp := some ts }] ∧
    (round2 power ≠ power →
      (update_power_data true power ts st).2 ≠
        [{ grid_power := some (round2 power)
           spot_price := st.latestSpotPrice
           solar_production := st.latestSolarProduction
           timestamp := some ts }]) := by
  refine ⟨rfl, rfl, fun h hbad => h ?_⟩
  have hh := List.head_eq_of_cons_eq hbad
  have hg : some power = some (round2 power) :=
    congrArg InfluxWritePayload.grid_power hh
  exact (Option.some.injEq _ _ ▸ hg).symm

/-- Witness for C10_rounding_divergence at power 0.001, where rounding
to two decimals yields 0. -/
theorem C10_rounding_divergence_witness :
    round2 (1/1000 : ℚ) ≠ (1/1000 : ℚ) ∧
    (update_power_data true (1/1000) 0 dmInit).2 ≠
      [{ grid_power := some (round2 (1/1000))
         spot_price := dmInit.latestSpotPrice
         solar_production := dmInit.latestSolarProduction
         timestamp := some 0 }] := by
  have hr : round2 (1/1000 : ℚ) = 0 := by
    simp only [round2, roundHalfEven]
    have h1 : (1/1000 : ℚ) * 100 = 1/10 := by norm_num
    rw [h1]
    have hf : ⌊(1/10 : ℚ)⌋ = 0 := by
      rw [Int.floor_eq_iff]
      norm_num
    rw [hf]
    rw [if_pos (by norm_num)]
    norm_num
  have hne : round2 (1/1000 : ℚ) ≠ (1/1000 : ℚ) := by
    rw [hr]
    norm_num
  exact ⟨hne, (C10_rounding_divergence (1/1000) 0 dmInit).2.2 hne⟩

end Sotehus
